import Mathlib

/-!
Verification development for the GFE API-gateway backend.

JavaScript numbers are modelled as rationals (ℚ); register values carry the
JS distinction between an absent key (`Option.none`), the JSON `null`, the
literal string `"null"`, the empty string, a numeric string / number, and a
non-numeric string.  Stateful services (socket manager, ref-counted rooms,
SQLite-backed registries) are modelled by explicit state passing.
-/

namespace GfeBackend

/-! ### Register values (src/src/modules/utils/yamlManager.js, powerFlowUtils part) -/

/-- A JavaScript value stored under a register key.  An absent key is
represented by `Option.none` at the use site (JS `undefined`). -/
inductive RegVal where
  | jsNull
  | strNull
  | strEmpty
  | numStr (q : ℚ)
  | numVal (q : ℚ)
  | badStr
deriving DecidableEq, Repr

/-- `isNullValue(value)`: null, undefined, the string "null", or "". -/
def isNullValue : Option RegVal → Bool
  | none => true
  | some .jsNull => true
  | some .strNull => true
  | some .strEmpty => true
  | some _ => false

/-- `parsePowerValue(value)`: 0 for null/invalid values, else `parseFloat`. -/
def parsePowerValue (value : Option RegVal) : ℚ :=
  if isNullValue value then 0
  else
    match value with
    | some (.numStr q) => q
    | some (.numVal q) => q
    | _ => 0

/-- The register map of one device entry, restricted to the four keys the
power-flow computation reads. -/
structure Register where
  W : Option RegVal
  WphA : Option RegVal
  WphB : Option RegVal
  WphC : Option RegVal
deriving DecidableEq, Repr

/-- `calculateDevicePower(register)`: composite `W` first, else the
three-phase sum guarded by "at least one phase non-null". -/
def calculateDevicePower (register : Register) : ℚ :=
  if register.W.isSome && !isNullValue register.W then
    parsePowerValue register.W
  else if register.WphA.isSome && register.WphB.isSome && register.WphC.isSome then
    let phaseA := if isNullValue register.WphA then 0 else parsePowerValue register.WphA
    let phaseB := if isNullValue register.WphB then 0 else parsePowerValue register.WphB
    let phaseC := if isNullValue register.WphC then 0 else parsePowerValue register.WphC
    if !isNullValue register.WphA || !isNullValue register.WphB || !isNullValue register.WphC then
      phaseA + phaseB + phaseC
    else 0
  else 0

/-- The guard `!isNullValue(register.W) || !isNullValue(register.WphA) || ...`
from `processPowerFlowData`. -/
def anyRegisterNonNull (register : Register) : Bool :=
  !isNullValue register.W || !isNullValue register.WphA ||
  !isNullValue register.WphB || !isNullValue register.WphC

/-! ### Sensor entries -/

/-- Metadata sub-object of one entry (only the fields the core reads). -/
structure DeviceMeta where
  device_name : Option String
  device_type : Option String
deriving DecidableEq, Repr

/-- One entry of an ingested batch.  The code tolerates two spellings of the
metadata key (`deviceMataData || deviceMetaData || {}`). -/
structure SensorEntry where
  deviceMataData : Option DeviceMeta
  deviceMetaData : Option DeviceMeta
  register : Option Register
deriving DecidableEq, Repr

/-- `entry.deviceMataData || entry.deviceMetaData || {}`. -/
def entryMeta (entry : SensorEntry) : DeviceMeta :=
  match entry.deviceMataData with
  | some m => m
  | none =>
    match entry.deviceMetaData with
    | some m => m
    | none => ⟨none, none⟩

/-- JS falsiness of a string-valued field: `undefined` or `""`. -/
def isFalsyStr : Option String → Bool
  | none => true
  | some s => s == ""

/-! ### powerFlowUtils.processPowerFlowData -/

/-- The `receivedDevices` set (at most the three category tags). -/
structure ReceivedDevices where
  solar : Bool
  grid : Bool
  genset : Bool
deriving DecidableEq, Repr

/-- The `deviceCounts` logging counters. -/
structure DeviceCounts where
  solar_inverter : Nat
  power_meter : Nat
  genset_controller : Nat
deriving DecidableEq, Repr

/-- Loop accumulator of `processPowerFlowData`. -/
structure PowerFlowAcc where
  solarPower : ℚ
  gridPower : ℚ
  gensetPower : ℚ
  received : ReceivedDevices
  counts : DeviceCounts
deriving DecidableEq, Repr

def initPowerFlowAcc : PowerFlowAcc :=
  ⟨0, 0, 0, ⟨false, false, false⟩, ⟨0, 0, 0⟩⟩

/-- `deviceCounts[deviceType]++` guarded by `hasOwnProperty`. -/
def bumpCounts (counts : DeviceCounts) (dt : String) : DeviceCounts :=
  if dt == "solar_inverter" then { counts with solar_inverter := counts.solar_inverter + 1 }
  else if dt == "power_meter" then { counts with power_meter := counts.power_meter + 1 }
  else if dt == "genset_controller" then { counts with genset_controller := counts.genset_controller + 1 }
  else counts

/-- One iteration of the `for (const entry of sensorData)` loop. -/
def processEntry (acc : PowerFlowAcc) (entry : SensorEntry) : PowerFlowAcc :=
  let deviceType := (entryMeta entry).device_type
  match entry.register with
  | none => acc
  | some register =>
    if isFalsyStr deviceType then acc
    else
      let dt := deviceType.getD ""
      let acc1 := { acc with counts := bumpCounts acc.counts dt }
      let devicePower := calculateDevicePower register
      if devicePower > 0 || anyRegisterNonNull register then
        if dt == "solar_inverter" then
          { acc1 with solarPower := acc1.solarPower + devicePower,
                      received := { acc1.received with solar := true } }
        else if dt == "power_meter" then
          { acc1 with gridPower := acc1.gridPower + devicePower,
                      received := { acc1.received with grid := true } }
        else if dt == "genset_controller" then
          { acc1 with gensetPower := acc1.gensetPower + devicePower,
                      received := { acc1.received with genset := true } }
        else acc1
      else acc1

/-- `Math.round(x * 100) / 100` over ℚ: half-up rounding to 2 decimals. -/
def round2 (x : ℚ) : ℚ :=
  ((Int.floor (x * 100 + 1 / 2) : ℤ) : ℚ) / 100

/-- Return value of `powerFlowUtils.processPowerFlowData`. -/
structure PowerFlowResult where
  solar : ℚ
  grid : ℚ
  genset : ℚ
  load : ℚ
  receivedDevices : ReceivedDevices
  deviceCounts : DeviceCounts
deriving DecidableEq, Repr

namespace PowerFlowUtils

/-- `processPowerFlowData(sensorData)` from powerFlowUtils. -/
def processPowerFlowData (sensorData : List SensorEntry) : PowerFlowResult :=
  let acc := sensorData.foldl processEntry initPowerFlowAcc
  let loadPower := acc.solarPower + acc.gridPower + acc.gensetPower
  { solar := round2 acc.solarPower
    grid := round2 acc.gridPower
    genset := round2 acc.gensetPower
    load := round2 loadPower
    receivedDevices := acc.received
    deviceCounts := acc.counts }

end PowerFlowUtils

/-! ### SocketManager carry-forward aggregation -/

/-- `this.previousPowerFlowData`. -/
structure PowerFlowState where
  solar : ℚ
  grid : ℚ
  genset : ℚ
  load : ℚ
deriving DecidableEq, Repr

/-- Constructor initialization: all categories zero on cold start. -/
def initialPowerFlowData : PowerFlowState := ⟨0, 0, 0, 0⟩

/-- The `status` sub-object of the emitted snapshot. -/
structure SnapshotStatus where
  solar : String
  grid : String
  genset : String
  load : String
deriving DecidableEq, Repr

/-- The `powerFlowData` object handed to `emitPowerFlowData`. -/
structure PowerFlowSnapshot where
  solar : ℚ
  grid : ℚ
  genset : ℚ
  load : ℚ
  timestamp : Int
  receivedDevices : ReceivedDevices
  status : SnapshotStatus
deriving DecidableEq, Repr

namespace SocketManager

/-- `SocketManager.processPowerFlowData(sensorData, timestamp)` minus the
emit: returns the updated `previousPowerFlowData` and the snapshot. -/
def processPowerFlowData (prev : PowerFlowState) (sensorData : List SensorEntry)
    (timestamp : Int) : PowerFlowState × PowerFlowSnapshot :=
  let result := PowerFlowUtils.processPowerFlowData sensorData
  let hasSolar := result.receivedDevices.solar
  let hasGrid := result.receivedDevices.grid
  let hasGenset := result.receivedDevices.genset
  let finalSolarPower := if hasSolar then result.solar else prev.solar
  let finalGridPower := if hasGrid then result.grid else prev.grid
  let finalGensetPower := if hasGenset then result.genset else prev.genset
  let finalLoadPower := finalSolarPower + finalGridPower + finalGensetPower
  let newPrev : PowerFlowState :=
    ⟨finalSolarPower, finalGridPower, finalGensetPower, finalLoadPower⟩
  let powerFlowData : PowerFlowSnapshot :=
    { solar := finalSolarPower
      grid := finalGridPower
      genset := finalGensetPower
      load := finalLoadPower
      timestamp := timestamp
      receivedDevices := result.receivedDevices
      status :=
        ⟨if finalSolarPower > 0 then "Active" else "Inactive",
         if finalGridPower > 0 then "Active" else "Inactive",
         if finalGensetPower > 0 then "Running" else "Stopped",
         if finalLoadPower > 0 then "Active" else "No Load"⟩ }
  (newPrev, powerFlowData)

end SocketManager

/-! ### Rooms and gated emission (SocketManager) -/

/-- A socket.io adapter room table: room key to member socket ids. -/
abbrev Rooms := List (String × List Nat)

/-- Members of a room (`io.sockets.adapter.rooms.get(room)`, empty when the
key is absent). -/
def roomMembers (rooms : Rooms) (room : String) : List Nat :=
  match rooms.find? (fun p => p.1 == room) with
  | some p => p.2
  | none => []

namespace SocketManager

/-- `sensorRoom(deviceName)`. -/
def sensorRoom (deviceName : String) : String := "sensor:" ++ deviceName

/-- `hasListeners(room)`: false when `io` is null, else existence plus
non-emptiness of the adapter room set. -/
def hasListeners (io : Option Rooms) (room : String) : Bool :=
  match io with
  | none => false
  | some rooms =>
    match rooms.find? (fun p => p.1 == room) with
    | some p => decide (0 < p.2.length)
    | none => false

/-- A delivery performed by `io.to(room).emit(event, data)`: one
(socket id, event, payload) triple per room member. -/
def roomDeliveries (io : Option Rooms) (room event : String) (payload : α) :
    List (Nat × String × α) :=
  (roomMembers (io.getD []) room).map (fun c => (c, event, payload))

/-- `emitSensorToDevice(deviceName, shortNameDict)`: returns the boolean
result and the deliveries performed. -/
def emitSensorToDevice (io : Option Rooms) (deviceName : String)
    (shortNameDict : α) : Bool × List (Nat × String × α) :=
  let room := sensorRoom deviceName
  if !hasListeners io room then (false, [])
  else (true, roomDeliveries io room "sensor-data" shortNameDict)

/-- `emitPowerFlowData(powerFlowData)`. -/
def emitPowerFlowData (io : Option Rooms) (powerFlowData : PowerFlowSnapshot) :
    Bool × List (Nat × String × PowerFlowSnapshot) :=
  let room := "power-flow"
  if !hasListeners io room then (false, [])
  else (true, roomDeliveries io room "power-flow-data" powerFlowData)

/-- Result of one full `SocketManager.processPowerFlowData` call, emission
included. -/
structure ProcessOutput where
  newState : PowerFlowState
  snapshot : PowerFlowSnapshot
  emitted : Bool
  deliveries : List (Nat × String × PowerFlowSnapshot)
deriving DecidableEq, Repr

/-- `SocketManager.processPowerFlowData` followed by its trailing
`emitPowerFlowData` call, with the adapter room table in scope. -/
def processAndEmitPowerFlowData (io : Option Rooms) (prev : PowerFlowState)
    (sensorData : List SensorEntry) (timestamp : Int) : ProcessOutput :=
  let r := processPowerFlowData prev sensorData timestamp
  let e := emitPowerFlowData io r.2
  ⟨r.1, r.2, e.1, e.2⟩

/-! ### Reference-counted sensor rooms (`sensorRefCounts`) -/

/-- The `sensorRefCounts` map, in insertion order. -/
abbrev RefCounts := List (String × Int)

/-- `this.sensorRefCounts.get(deviceName) || 0`. -/
def getRef (m : RefCounts) (deviceName : String) : Int :=
  match m.find? (fun p => p.1 == deviceName) with
  | some p => p.2
  | none => 0

/-- Whether the map has an entry for the key. -/
def hasRef (m : RefCounts) (deviceName : String) : Bool :=
  m.any (fun p => p.1 == deviceName)

/-- `Map.set`: replace the existing entry in place, else append. -/
def setRef (m : RefCounts) (deviceName : String) (v : Int) : RefCounts :=
  if m.any (fun p => p.1 == deviceName) then
    m.map (fun p => if p.1 == deviceName then (deviceName, v) else p)
  else m ++ [(deviceName, v)]

/-- `Map.delete`. -/
def delRef (m : RefCounts) (deviceName : String) : RefCounts :=
  m.filter (fun p => p.1 != deviceName)

/-- `_incDeviceRef(deviceName)`: returns the new count and the new map. -/
def incDeviceRef (m : RefCounts) (deviceName : String) : Int × RefCounts :=
  let n := getRef m deviceName + 1
  (n, setRef m deviceName n)

/-- `_decDeviceRef(deviceName)`: floored at zero, entry deleted at zero. -/
def decDeviceRef (m : RefCounts) (deviceName : String) : Int × RefCounts :=
  let cur := getRef m deviceName
  let n := max 0 (cur - 1)
  if n = 0 then (n, delRef m deviceName) else (n, setRef m deviceName n)

/-- Socket lifecycle events that touch `sensorRefCounts`: `join-room`,
`leave-room`, and `disconnect` (which decrements once per sensor room the
socket was in). -/
inductive RoomEvent where
  | join (deviceName : String)
  | leave (deviceName : String)
  | disconnect (deviceNames : List String)
deriving DecidableEq, Repr

/-- Effect of one event on `sensorRefCounts`. -/
def stepRoomEvent (m : RefCounts) : RoomEvent → RefCounts
  | .join deviceName => (incDeviceRef m deviceName).2
  | .leave deviceName => (decDeviceRef m deviceName).2
  | .disconnect deviceNames =>
    deviceNames.foldl (fun acc d => (decDeviceRef acc d).2) m

/-- Replay a sequence of events from the constructor's empty map. -/
def replayRoomEvents (events : List RoomEvent) : RefCounts :=
  events.foldl stepRoomEvent []

end SocketManager

/-! ### DeviceTableService (src/src/services/deviceTableService.js) -/

/-- One register declaration of a blueprint. -/
structure BlueprintRegister where
  short_name : String
deriving DecidableEq, Repr

/-- The `header` of a blueprint document. -/
structure BlueprintHeader where
  reference : String
  device_type : String
deriving DecidableEq, Repr

/-- A parsed blueprint YAML document. -/
structure Blueprint where
  header : BlueprintHeader
  registers : List BlueprintRegister
deriving DecidableEq, Repr

/-- The blueprint directory: parsed documents in scan order. -/
abbrev BlueprintDir := List Blueprint

/-- `this.blueprintCache` (a JS Map, insertion order). -/
abbrev BlueprintCache := List (String × Blueprint)

/-- One row of the `device_tables` registry (`device_name` is the primary
key). -/
structure DeviceTableRow where
  device_name : String
  device_type : String
  reference : String
  table_name : String
deriving DecidableEq, Repr

/-- The global SQLite database state the service mutates: physical tables
plus the `device_tables` registry. -/
structure GlobalDb where
  tables : List String
  device_tables : List DeviceTableRow
deriving DecidableEq, Repr

namespace DeviceTableService

/-- The directory scan of `loadBlueprint`: first document whose
`header.reference` matches. -/
def findBlueprint : BlueprintDir → String → Option Blueprint
  | [], _ => none
  | bp :: rest, reference =>
    if bp.header.reference == reference then some bp
    else findBlueprint rest reference

/-- `loadBlueprint(reference)`: cache hit returns the stored document
unchanged; a miss scans the directory and caches the match; no match
throws. -/
def loadBlueprint (cache : BlueprintCache) (dir : BlueprintDir)
    (reference : String) : Except String (Blueprint × BlueprintCache) :=
  match cache.find? (fun p => p.1 == reference) with
  | some p => .ok (p.2, cache)
  | none =>
    match findBlueprint dir reference with
    | some blueprint => .ok (blueprint, cache ++ [(reference, blueprint)])
    | none => .error ("Blueprint file not found for reference: " ++ reference)

/-- `deviceName.replace(/[^a-zA-Z0-9_]/g, '_')`. -/
def sanitizeChar (c : Char) : Char :=
  if c.isAlphanum || c == '_' then c else '_'

/-- The derived physical table name (the regex replace is applied
character by character). -/
def tableNameFor (deviceName : String) : String :=
  "device_" ++ String.mk (deviceName.data.map sanitizeChar)

/-- `CREATE TABLE IF NOT EXISTS`. -/
def createTableIfNotExists (db : GlobalDb) (tableName : String) : GlobalDb :=
  if db.tables.contains tableName then db
  else { db with tables := db.tables ++ [tableName] }

/-- `registerDeviceTable`: `INSERT OR REPLACE` keyed on `device_name`. -/
def registerDeviceTable (db : GlobalDb) (deviceName deviceType reference
    tableName : String) : GlobalDb :=
  { db with device_tables :=
      db.device_tables.filter (fun r => r.device_name != deviceName) ++
        [⟨deviceName, deviceType, reference, tableName⟩] }

/-- `createDeviceTable(deviceName, reference)`: blueprint load, register
check, table creation, registry upsert. -/
def createDeviceTable (cache : BlueprintCache) (dir : BlueprintDir)
    (db : GlobalDb) (deviceName reference : String) :
    Except String (String × BlueprintCache × GlobalDb) :=
  match loadBlueprint cache dir reference with
  | .error e => .error e
  | .ok (blueprint, cache1) =>
    if blueprint.registers.isEmpty then
      .error ("No parameters found for reference: " ++ reference)
    else
      let deviceType := blueprint.header.device_type
      let tableName := tableNameFor deviceName
      let db1 := createTableIfNotExists db tableName
      let db2 := registerDeviceTable db1 deviceName deviceType reference tableName
      .ok (tableName, cache1, db2)

end DeviceTableService

/-! ### SQLiteService.getPowerFlowHistory retry loop -/

/-- One row of `power_flow_analysis` as returned by `db.all`.  Metric
columns may be SQL NULL. -/
structure HistoryRow where
  solar : Option ℚ
  grid : Option ℚ
  genset : Option ℚ
  load : Option ℚ
  batch_id : String
  timestamp : Int
deriving DecidableEq, Repr

/-- One formatted point handed to the frontend chart. -/
structure HistoryPoint where
  solar : ℚ
  grid : ℚ
  genset : ℚ
  load : ℚ
  batchId : String
  time : Int
deriving DecidableEq, Repr

/-- The result object the promise resolves with (soft failures included). -/
structure HistoryResult where
  success : Bool
  error : Option String
  data : List HistoryPoint
  count : Option Nat
deriving DecidableEq, Repr

/-- Outcome of one `db.all` attempt. -/
inductive QueryOutcome where
  | ok (rows : List HistoryRow)
  | err (code : String) (message : String)
deriving DecidableEq, Repr

namespace SQLiteService

/-- The per-row formatting step (`parseFloat(row.x || 0)` with the
try/catch-and-filter structure of the source). -/
def formatRow (row : HistoryRow) : Option HistoryPoint :=
  some { solar := row.solar.getD 0
         grid := row.grid.getD 0
         genset := row.genset.getD 0
         load := row.load.getD 0
         batchId := row.batch_id
         time := row.timestamp }

/-- `attemptQuery(retryCount)`: the store is an oracle giving the outcome of
each attempt.  Returns the resolved result, the number of `db.all` calls
made, and the list of delays (ms) slept between attempts. -/
def attemptQuery (store : Nat → QueryOutcome) (retryCount : Nat) :
    HistoryResult × Nat × List Nat :=
  match store retryCount with
  | .err code message =>
    if h : code = "SQLITE_BUSY" ∧ retryCount < 3 then
      let rest := attemptQuery store (retryCount + 1)
      (rest.1, rest.2.1 + 1, 1000 :: rest.2.2)
    else
      ({ success := false, error := some message, data := [], count := none }, 1, [])
  | .ok rows =>
    let formattedData := rows.filterMap formatRow
    ({ success := true, error := none, data := formattedData,
       count := some formattedData.length }, 1, [])
termination_by 4 - retryCount
decreasing_by omega

/-- `getPowerFlowHistory` always resolves: the retry loop starts at 0. -/
def getPowerFlowHistory (store : Nat → QueryOutcome) :
    HistoryResult × Nat × List Nat :=
  attemptQuery store 0

end SQLiteService

/-! ### Derived batch observables -/

/-- The power `calculateDevicePower` resolves for one entry. -/
def entryPower (entry : SensorEntry) : ℚ :=
  match entry.register with
  | some register => calculateDevicePower register
  | none => 0

/-- Whether one entry contributes data to the given device-type category in
a batch: a register map present, a non-falsy matching device type, and the
"valid power data" guard of the aggregation loop. -/
def entryReportsFor (cat : String) (entry : SensorEntry) : Bool :=
  match entry.register with
  | none => false
  | some register =>
    !isFalsyStr (entryMeta entry).device_type &&
    ((entryMeta entry).device_type.getD "" == cat) &&
    (decide (calculateDevicePower register > 0) || anyRegisterNonNull register)

/-- Whether at least one device of the category reports in the batch. -/
def batchReports (cat : String) (batch : List SensorEntry) : Bool :=
  batch.any (entryReportsFor cat)

/-- The fresh per-batch sum of the category: powers of exactly the
contributing devices of that type. -/
def batchSum (cat : String) (batch : List SensorEntry) : ℚ :=
  (batch.map (fun e => if entryReportsFor cat e then entryPower e else 0)).sum

lemma processEntry_solarPower (acc : PowerFlowAcc) (entry : SensorEntry) :
    (processEntry acc entry).solarPower =
      acc.solarPower +
        (if entryReportsFor "solar_inverter" entry then entryPower entry else 0) := by
  unfold processEntry entryReportsFor entryPower
  cases hr : entry.register with
  | none => simp
  | some register =>
    dsimp only
    by_cases hf : isFalsyStr (entryMeta entry).device_type = true
    · simp [hf]
    · simp only [hf, Bool.not_eq_true] at hf ⊢
      simp only [hf, Bool.not_false, Bool.true_and, if_false, Bool.false_eq_true]
      split_ifs with hc h1 h1' <;> (try simp_all) <;> (try linarith)

lemma processEntry_gridPower (acc : PowerFlowAcc) (entry : SensorEntry) :
    (processEntry acc entry).gridPower =
      acc.gridPower +
        (if entryReportsFor "power_meter" entry then entryPower entry else 0) := by
  unfold processEntry entryReportsFor entryPower
  cases hr : entry.register with
  | none => simp
  | some register =>
    dsimp only
    by_cases hf : isFalsyStr (entryMeta entry).device_type = true
    · simp [hf]
    · simp only [hf, Bool.not_eq_true] at hf ⊢
      simp only [hf, Bool.not_false, Bool.true_and, if_false, Bool.false_eq_true]
      split_ifs with hc h1 h1' <;> (try simp_all) <;> (try linarith)

lemma processEntry_gensetPower (acc : PowerFlowAcc) (entry : SensorEntry) :
    (processEntry acc entry).gensetPower =
      acc.gensetPower +
        (if entryReportsFor "genset_controller" entry then entryPower entry else 0) := by
  unfold processEntry entryReportsFor entryPower
  cases hr : entry.register with
  | none => simp
  | some register =>
    dsimp only
    by_cases hf : isFalsyStr (entryMeta entry).device_type = true
    · simp [hf]
    · simp only [hf, Bool.not_eq_true] at hf ⊢
      simp only [hf, Bool.not_false, Bool.true_and, if_false, Bool.false_eq_true]
      split_ifs with hc h1 h1' <;> (try simp_all) <;> (try linarith)

lemma processEntry_received_solar (acc : PowerFlowAcc) (entry : SensorEntry) :
    (processEntry acc entry).received.solar =
      (acc.received.solar || entryReportsFor "solar_inverter" entry) := by
  unfold processEntry entryReportsFor
  cases hr : entry.register with
  | none => simp
  | some register =>
    dsimp only
    by_cases hf : isFalsyStr (entryMeta entry).device_type = true
    · simp [hf]
    · simp only [hf, Bool.not_eq_true] at hf ⊢
      simp only [hf, Bool.not_false, Bool.true_and, if_false, Bool.false_eq_true]
      split_ifs with hc h1 h1' <;> (try simp_all) <;> (try linarith)

lemma processEntry_received_grid (acc : PowerFlowAcc) (entry : SensorEntry) :
    (processEntry acc entry).received.grid =
      (acc.received.grid || entryReportsFor "power_meter" entry) := by
  unfold processEntry entryReportsFor
  cases hr : entry.register with
  | none => simp
  | some register =>
    dsimp only
    by_cases hf : isFalsyStr (entryMeta entry).device_type = true
    · simp [hf]
    · simp only [hf, Bool.not_eq_true] at hf ⊢
      simp only [hf, Bool.not_false, Bool.true_and, if_false, Bool.false_eq_true]
      split_ifs with hc h1 h1' <;> (try simp_all) <;> (try linarith)

lemma processEntry_received_genset (acc : PowerFlowAcc) (entry : SensorEntry) :
    (processEntry acc entry).received.genset =
      (acc.received.genset || entryReportsFor "genset_controller" entry) := by
  unfold processEntry entryReportsFor
  cases hr : entry.register with
  | none => simp
  | some register =>
    dsimp only
    by_cases hf : isFalsyStr (entryMeta entry).device_type = true
    · simp [hf]
    · simp only [hf, Bool.not_eq_true] at hf ⊢
      simp only [hf, Bool.not_false, Bool.true_and, if_false, Bool.false_eq_true]
      split_ifs with hc h1 h1' <;> (try simp_all) <;> (try linarith)

lemma foldl_solarPower (batch : List SensorEntry) :
    ∀ acc : PowerFlowAcc,
      (batch.foldl processEntry acc).solarPower =
        acc.solarPower + batchSum "solar_inverter" batch := by
  induction batch with
  | nil => intro acc; simp [batchSum]
  | cons e rest ih =>
    intro acc
    rw [List.foldl_cons, ih, processEntry_solarPower]
    simp only [batchSum, List.map_cons, List.sum_cons]
    ring

lemma foldl_gridPower (batch : List SensorEntry) :
    ∀ acc : PowerFlowAcc,
      (batch.foldl processEntry acc).gridPower =
        acc.gridPower + batchSum "power_meter" batch := by
  induction batch with
  | nil => intro acc; simp [batchSum]
  | cons e rest ih =>
    intro acc
    rw [List.foldl_cons, ih, processEntry_gridPower]
    simp only [batchSum, List.map_cons, List.sum_cons]
    ring

lemma foldl_gensetPower (batch : List SensorEntry) :
    ∀ acc : PowerFlowAcc,
      (batch.foldl processEntry acc).gensetPower =
        acc.gensetPower + batchSum "genset_controller" batch := by
  induction batch with
  | nil => intro acc; simp [batchSum]
  | cons e rest ih =>
    intro acc
    rw [List.foldl_cons, ih, processEntry_gensetPower]
    simp only [batchSum, List.map_cons, List.sum_cons]
    ring

lemma foldl_received_solar (batch : List SensorEntry) :
    ∀ acc : PowerFlowAcc,
      (batch.foldl processEntry acc).received.solar =
        (acc.received.solar || batchReports "solar_inverter" batch) := by
  induction batch with
  | nil => intro acc; simp [batchReports]
  | cons e rest ih =>
    intro acc
    rw [List.foldl_cons, ih, processEntry_received_solar]
    simp [batchReports, Bool.or_assoc]

lemma foldl_received_grid (batch : List SensorEntry) :
    ∀ acc : PowerFlowAcc,
      (batch.foldl processEntry acc).received.grid =
        (acc.received.grid || batchReports "power_meter" batch) := by
  induction batch with
  | nil => intro acc; simp [batchReports]
  | cons e rest ih =>
    intro acc
    rw [List.foldl_cons, ih, processEntry_received_grid]
    simp [batchReports, Bool.or_assoc]

lemma foldl_received_genset (batch : List SensorEntry) :
    ∀ acc : PowerFlowAcc,
      (batch.foldl processEntry acc).received.genset =
        (acc.received.genset || batchReports "genset_controller" batch) := by
  induction batch with
  | nil => intro acc; simp [batchReports]
  | cons e rest ih =>
    intro acc
    rw [List.foldl_cons, ih, processEntry_received_genset]
    simp [batchReports, Bool.or_assoc]

lemma processPowerFlowData_solar (batch : List SensorEntry) :
    (PowerFlowUtils.processPowerFlowData batch).solar =
      round2 (batchSum "solar_inverter" batch) := by
  unfold PowerFlowUtils.processPowerFlowData
  dsimp only
  rw [foldl_solarPower]
  simp [initPowerFlowAcc]

lemma processPowerFlowData_grid (batch : List SensorEntry) :
    (PowerFlowUtils.processPowerFlowData batch).grid =
      round2 (batchSum "power_meter" batch) := by
  unfold PowerFlowUtils.processPowerFlowData
  dsimp only
  rw [foldl_gridPower]
  simp [initPowerFlowAcc]

lemma processPowerFlowData_genset (batch : List SensorEntry) :
    (PowerFlowUtils.processPowerFlowData batch).genset =
      round2 (batchSum "genset_controller" batch) := by
  unfold PowerFlowUtils.processPowerFlowData
  dsimp only
  rw [foldl_gensetPower]
  simp [initPowerFlowAcc]

lemma processPowerFlowData_received (batch : List SensorEntry) :
    (PowerFlowUtils.processPowerFlowData batch).receivedDevices =
      ⟨batchReports "solar_inverter" batch, batchReports "power_meter" batch,
       batchReports "genset_controller" batch⟩ := by
  have hs := foldl_received_solar batch initPowerFlowAcc
  have hg := foldl_received_grid batch initPowerFlowAcc
  have hn := foldl_received_genset batch initPowerFlowAcc
  rw [show initPowerFlowAcc.received.solar = false from rfl, Bool.false_or] at hs
  rw [show initPowerFlowAcc.received.grid = false from rfl, Bool.false_or] at hg
  rw [show initPowerFlowAcc.received.genset = false from rfl, Bool.false_or] at hn
  unfold PowerFlowUtils.processPowerFlowData
  dsimp only
  rw [← hs, ← hg, ← hn]

/-- The snapshot's solar metric: fresh rounded sum or carried previous. -/
lemma snap_solar_eq (prev : PowerFlowState) (batch : List SensorEntry) (ts : Int) :
    ((SocketManager.processPowerFlowData prev batch ts).2).solar =
      if batchReports "solar_inverter" batch
      then round2 (batchSum "solar_inverter" batch) else prev.solar := by
  show (if (PowerFlowUtils.processPowerFlowData batch).receivedDevices.solar
        then (PowerFlowUtils.processPowerFlowData batch).solar else prev.solar) = _
  rw [processPowerFlowData_received, processPowerFlowData_solar]

lemma snap_grid_eq (prev : PowerFlowState) (batch : List SensorEntry) (ts : Int) :
    ((SocketManager.processPowerFlowData prev batch ts).2).grid =
      if batchReports "power_meter" batch
      then round2 (batchSum "power_meter" batch) else prev.grid := by
  show (if (PowerFlowUtils.processPowerFlowData batch).receivedDevices.grid
        then (PowerFlowUtils.processPowerFlowData batch).grid else prev.grid) = _
  rw [processPowerFlowData_received, processPowerFlowData_grid]

lemma snap_genset_eq (prev : PowerFlowState) (batch : List SensorEntry) (ts : Int) :
    ((SocketManager.processPowerFlowData prev batch ts).2).genset =
      if batchReports "genset_controller" batch
      then round2 (batchSum "genset_controller" batch) else prev.genset := by
  show (if (PowerFlowUtils.processPowerFlowData batch).receivedDevices.genset
        then (PowerFlowUtils.processPowerFlowData batch).genset else prev.genset) = _
  rw [processPowerFlowData_received, processPowerFlowData_genset]

/-! ### Rounding helpers -/

/-- A rational that is a whole number of hundredths. -/
def IsCent (x : ℚ) : Prop := ∃ k : ℤ, x = (k : ℚ) / 100

lemma isCent_round2 (x : ℚ) : IsCent (round2 x) := ⟨Int.floor (x * 100 + 1 / 2), rfl⟩

lemma IsCent.round2_fix {x : ℚ} (h : IsCent x) : round2 x = x := by
  obtain ⟨k, rfl⟩ := h
  unfold round2
  have h100 : (100 : ℚ) ≠ 0 := by norm_num
  rw [div_mul_cancel₀ _ h100, Int.floor_int_add]
  norm_num

lemma IsCent.add {x y : ℚ} (hx : IsCent x) (hy : IsCent y) : IsCent (x + y) := by
  obtain ⟨a, rfl⟩ := hx
  obtain ⟨b, rfl⟩ := hy
  exact ⟨a + b, by push_cast; ring⟩

lemma isCent_zero : IsCent 0 := ⟨0, by norm_num⟩

/-- Replay of a history of ingested batches from the cold-start state. -/
def replayBatches (history : List (List SensorEntry × Int)) : PowerFlowState :=
  history.foldl
    (fun st b => (SocketManager.processPowerFlowData st b.1 b.2).1)
    initialPowerFlowData

/-- All components of the carried state are whole hundredths. -/
def StateCent (st : PowerFlowState) : Prop :=
  IsCent st.solar ∧ IsCent st.grid ∧ IsCent st.genset ∧ IsCent st.load

lemma stateCent_step (st : PowerFlowState) (batch : List SensorEntry) (ts : Int)
    (h : StateCent st) :
    StateCent (SocketManager.processPowerFlowData st batch ts).1 := by
  obtain ⟨h1, h2, h3, _⟩ := h
  have hs : IsCent ((SocketManager.processPowerFlowData st batch ts).1).solar := by
    show IsCent (if (PowerFlowUtils.processPowerFlowData batch).receivedDevices.solar
      then (PowerFlowUtils.processPowerFlowData batch).solar else st.solar)
    split
    · rw [processPowerFlowData_solar]; exact isCent_round2 _
    · exact h1
  have hg : IsCent ((SocketManager.processPowerFlowData st batch ts).1).grid := by
    show IsCent (if (PowerFlowUtils.processPowerFlowData batch).receivedDevices.grid
      then (PowerFlowUtils.processPowerFlowData batch).grid else st.grid)
    split
    · rw [processPowerFlowData_grid]; exact isCent_round2 _
    · exact h2
  have hn : IsCent ((SocketManager.processPowerFlowData st batch ts).1).genset := by
    show IsCent (if (PowerFlowUtils.processPowerFlowData batch).receivedDevices.genset
      then (PowerFlowUtils.processPowerFlowData batch).genset else st.genset)
    split
    · rw [processPowerFlowData_genset]; exact isCent_round2 _
    · exact h3
  exact ⟨hs, hg, hn, (hs.add hg).add hn⟩

lemma stateCent_replay (history : List (List SensorEntry × Int)) :
    StateCent (replayBatches history) := by
  have key : ∀ (hist : List (List SensorEntry × Int)) (st : PowerFlowState),
      StateCent st →
      StateCent (hist.foldl
        (fun st b => (SocketManager.processPowerFlowData st b.1 b.2).1) st) := by
    intro hist
    induction hist with
    | nil => intro st h; exact h
    | cons b rest ih =>
      intro st h
      exact ih _ (stateCent_step st b.1 b.2 h)
  exact key history initialPowerFlowData
    ⟨isCent_zero, isCent_zero, isCent_zero, isCent_zero⟩

/-! ### Helper notions used by the theorems -/

/-- The subscriber list of a room as seen through the adapter (empty when
`io` is null or the room key is absent). -/
def subscribersOf (io : Option Rooms) (room : String) : List Nat :=
  roomMembers (io.getD []) room

lemma hasListeners_eq_not_isEmpty (io : Option Rooms) (room : String) :
    SocketManager.hasListeners io room = !(subscribersOf io room).isEmpty := by
  cases io with
  | none => rfl
  | some rooms =>
    unfold SocketManager.hasListeners subscribersOf roomMembers
    cases h : rooms.find? (fun p => p.1 == room) with
    | none => simp [h]
    | some p =>
      simp only [h, Option.getD_some]
      cases p.2 <;> simp

/-! ### Reference-count map lemmas -/

namespace SocketManager

lemma setRef_cons_ne (a : String × Int) (rest : RefCounts) (k : String) (v : Int)
    (h : (a.1 == k) = false) :
    setRef (a :: rest) k v = a :: setRef rest k v := by
  have hne : a.1 ≠ k := by simpa using h
  unfold setRef
  cases h2 : rest.any (fun p => p.1 == k) <;> simp [List.any_cons, h, h2, hne]

lemma getRef_cons_ne (a : String × Int) (rest : RefCounts) (k : String)
    (h : (a.1 == k) = false) :
    getRef (a :: rest) k = getRef rest k := by
  unfold getRef
  rw [List.find?_cons_of_neg]
  simp [h]

lemma getRef_setRef_self (m : RefCounts) (k : String) (v : Int) :
    getRef (setRef m k v) k = v := by
  induction m with
  | nil => simp [setRef, getRef]
  | cons a rest ih =>
    cases h : (a.1 == k) with
    | false => rw [setRef_cons_ne a rest k v h, getRef_cons_ne _ _ _ h]; exact ih
    | true =>
      unfold setRef
      simp only [List.any_cons, h, Bool.true_or, if_true, List.map_cons]
      simp [getRef, List.find?_cons, h]

lemma hasRef_setRef_self (m : RefCounts) (k : String) (v : Int) :
    hasRef (setRef m k v) k = true := by
  induction m with
  | nil => simp [setRef, hasRef]
  | cons a rest ih =>
    cases h : (a.1 == k) with
    | false =>
      rw [setRef_cons_ne a rest k v h]
      simpa [hasRef, List.any_cons, h] using ih
    | true =>
      have heq : a.1 = k := by simpa using h
      unfold setRef
      simp [List.any_cons, h, hasRef, heq]

lemma getRef_delRef_self (m : RefCounts) (k : String) :
    getRef (delRef m k) k = 0 := by
  induction m with
  | nil => rfl
  | cons a rest ih =>
    unfold delRef at ih ⊢
    rw [List.filter_cons]
    cases h : (a.1 == k) with
    | true =>
      have hb : (a.1 != k) = false := by simp [bne, h]
      simp only [hb, Bool.false_eq_true, if_false]
      exact ih
    | false =>
      have hb : (a.1 != k) = true := by simp [bne, h]
      simp only [hb, if_true]
      rw [getRef_cons_ne _ _ _ h]
      exact ih

lemma hasRef_delRef_self (m : RefCounts) (k : String) :
    hasRef (delRef m k) k = false := by
  unfold hasRef delRef
  rw [List.any_eq_false]
  intro p hp
  have h1 := (List.mem_filter.mp hp).2
  simpa [bne] using h1

/-- The map invariant: every stored reference count is at least 1. -/
def RefInv (m : RefCounts) : Prop := ∀ p ∈ m, 1 ≤ p.2

lemma getRef_nonneg {m : RefCounts} (hm : RefInv m) (k : String) :
    0 ≤ getRef m k := by
  unfold getRef
  cases h : m.find? (fun p => p.1 == k) with
  | none => exact le_refl 0
  | some p =>
    have h1 := hm p (List.mem_of_find?_eq_some h)
    show (0 : Int) ≤ p.2
    omega

lemma refInv_setRef {m : RefCounts} (hm : RefInv m) {k : String} {v : Int}
    (hv : 1 ≤ v) : RefInv (setRef m k v) := by
  unfold setRef
  split
  · intro p hp
    rcases List.mem_map.mp hp with ⟨q, hq, rfl⟩
    split
    · exact hv
    · exact hm q hq
  · intro p hp
    rcases List.mem_append.mp hp with h | h
    · exact hm p h
    · rcases List.mem_singleton.mp h with rfl
      exact hv

lemma refInv_delRef {m : RefCounts} (hm : RefInv m) (k : String) :
    RefInv (delRef m k) :=
  fun p hp => hm p (List.mem_of_mem_filter hp)

lemma refInv_inc {m : RefCounts} (hm : RefInv m) (k : String) :
    RefInv (incDeviceRef m k).2 := by
  have := getRef_nonneg hm k
  exact refInv_setRef hm (by omega)

lemma decDeviceRef_eq (m : RefCounts) (k : String) :
    decDeviceRef m k =
      (max 0 (getRef m k - 1),
       if max 0 (getRef m k - 1) = 0 then delRef m k
       else setRef m k (max 0 (getRef m k - 1))) := by
  unfold decDeviceRef
  by_cases h : max 0 (getRef m k - 1) = 0
  · rw [if_pos h, if_pos h]
  · rw [if_neg h, if_neg h]

lemma refInv_dec {m : RefCounts} (hm : RefInv m) (k : String) :
    RefInv (decDeviceRef m k).2 := by
  rw [decDeviceRef_eq]
  by_cases h : max 0 (getRef m k - 1) = 0
  · rw [if_pos h]
    exact refInv_delRef hm k
  · rw [if_neg h]
    exact refInv_setRef hm (by omega)

lemma refInv_step {m : RefCounts} (hm : RefInv m) (e : RoomEvent) :
    RefInv (stepRoomEvent m e) := by
  cases e with
  | join k => exact refInv_inc hm k
  | leave k => exact refInv_dec hm k
  | disconnect ks =>
    induction ks generalizing m with
    | nil => exact hm
    | cons d rest ih =>
      exact ih (refInv_dec hm d)

lemma refInv_replay (events : List RoomEvent) : RefInv (replayRoomEvents events) := by
  have key : ∀ (es : List RoomEvent) (m : RefCounts), RefInv m →
      RefInv (es.foldl stepRoomEvent m) := by
    intro es
    induction es with
    | nil => intro m hm; exact hm
    | cons e rest ih => intro m hm; exact ih _ (refInv_step hm e)
  exact key events [] (by intro p hp; cases hp)

lemma hasRef_eq_decide {m : RefCounts} (hm : RefInv m) (k : String) :
    hasRef m k = decide (1 ≤ getRef m k) := by
  unfold hasRef getRef
  cases h : m.find? (fun p => p.1 == k) with
  | none =>
    have hall := List.find?_eq_none.mp h
    have : m.any (fun p => p.1 == k) = false := by
      rw [List.any_eq_false]
      intro p hp
      simpa using hall p hp
    simp [this]
  | some p =>
    have h1 := hm p (List.mem_of_find?_eq_some h)
    have hpk : (p.1 == k) = true := by simpa using List.find?_some h
    have h2 : m.any (fun p => p.1 == k) = true :=
      List.any_eq_true.mpr ⟨p, List.mem_of_find?_eq_some h, hpk⟩
    simp [h2, h1]

lemma getRef_dec (m : RefCounts) (k : String) :
    getRef (decDeviceRef m k).2 k = max 0 (getRef m k - 1) := by
  rw [decDeviceRef_eq]
  by_cases h : max 0 (getRef m k - 1) = 0
  · simp only [if_pos h, getRef_delRef_self]
    omega
  · rw [if_neg h, getRef_setRef_self]

end SocketManager

/-! ### C1 -/

/-- C1: per ingested batch, a category with zero devices reporting keeps the
previous aggregate value (the value also emitted for the previous batch;
zero on cold start, since the initial state is all zeros), while a category
with at least one reporting device has its value replaced by the rounded
fresh per-batch sum, with no dependence on the old value. -/
theorem c1_carry_forward_per_category (prev : PowerFlowState)
    (batch : List SensorEntry) (ts : Int) :
    (batchReports "solar_inverter" batch = false →
      ((SocketManager.processPowerFlowData prev batch ts).2).solar = prev.solar) ∧
    (batchReports "solar_inverter" batch = true →
      ((SocketManager.processPowerFlowData prev batch ts).2).solar =
        round2 (batchSum "solar_inverter" batch)) ∧
    (batchReports "power_meter" batch = false →
      ((SocketManager.processPowerFlowData prev batch ts).2).grid = prev.grid) ∧
    (batchReports "power_meter" batch = true →
      ((SocketManager.processPowerFlowData prev batch ts).2).grid =
        round2 (batchSum "power_meter" batch)) ∧
    (batchReports "genset_controller" batch = false →
      ((SocketManager.processPowerFlowData prev batch ts).2).genset = prev.genset) ∧
    (batchReports "genset_controller" batch = true →
      ((SocketManager.processPowerFlowData prev batch ts).2).genset =
        round2 (batchSum "genset_controller" batch)) ∧
    (((SocketManager.processPowerFlowData prev batch ts).1).solar =
      ((SocketManager.processPowerFlowData prev batch ts).2).solar ∧
     ((SocketManager.processPowerFlowData prev batch ts).1).grid =
      ((SocketManager.processPowerFlowData prev batch ts).2).grid ∧
     ((SocketManager.processPowerFlowData prev batch ts).1).genset =
      ((SocketManager.processPowerFlowData prev batch ts).2).genset) ∧
    (initialPowerFlowData.solar = 0 ∧ initialPowerFlowData.grid = 0 ∧
     initialPowerFlowData.genset = 0 ∧ initialPowerFlowData.load = 0) := by
  refine ⟨?_, ?_, ?_, ?_, ?_, ?_, ⟨rfl, rfl, rfl⟩, ⟨rfl, rfl, rfl, rfl⟩⟩
  · intro h
    simp [snap_solar_eq, h]
  · intro h
    simp [snap_solar_eq, h]
  · intro h
    simp [snap_grid_eq, h]
  · intro h
    simp [snap_grid_eq, h]
  · intro h
    simp [snap_genset_eq, h]
  · intro h
    simp [snap_genset_eq, h]

/-- Witness for C1: with previous state (5, 6, 7, 18), an empty batch
carries solar forward unchanged; a batch with one solar inverter at W = 250
replaces solar by the rounded fresh sum. -/
theorem c1_carry_forward_per_category_witness :
    ((SocketManager.processPowerFlowData ⟨5, 6, 7, 18⟩ [] 0).2).solar = (5 : ℚ) ∧
    ((SocketManager.processPowerFlowData ⟨5, 6, 7, 18⟩
        [⟨none, some ⟨some "Inv1", some "solar_inverter"⟩,
          some ⟨some (.numVal 250), none, none, none⟩⟩] 0).2).solar =
      round2 (batchSum "solar_inverter"
        [⟨none, some ⟨some "Inv1", some "solar_inverter"⟩,
          some ⟨some (.numVal 250), none, none, none⟩⟩]) :=
  ⟨(c1_carry_forward_per_category ⟨5, 6, 7, 18⟩ [] 0).1 rfl,
   (c1_carry_forward_per_category ⟨5, 6, 7, 18⟩
      [⟨none, some ⟨some "Inv1", some "solar_inverter"⟩,
        some ⟨some (.numVal 250), none, none, none⟩⟩] 0).2.1 rfl⟩

/-! ### C2 -/

/-- The contribution of one register map to its category in a batch, as the
aggregation loop computes it: `some p` adds `p` to the category sum and
marks the category fresh; `none` contributes no data. -/
def deviceBatchContribution (register : Register) : Option ℚ :=
  if decide (calculateDevicePower register > 0) || anyRegisterNonNull register
  then some (calculateDevicePower register) else none

/-- The per-device resolution rule exactly as the claim words it (spec side
of the refinement): a present non-null `W` wins; else all three phase
registers present gives the sum of the non-null phases; else the device
contributes no data. -/
def claimedDeviceResolution (register : Register) : Option ℚ :=
  if register.W.isSome && !isNullValue register.W then
    some (parsePowerValue register.W)
  else if register.WphA.isSome && register.WphB.isSome && register.WphC.isSome then
    some ((if isNullValue register.WphA then 0 else parsePowerValue register.WphA) +
          (if isNullValue register.WphB then 0 else parsePowerValue register.WphB) +
          (if isNullValue register.WphC then 0 else parsePowerValue register.WphC))
  else none

lemma calculateDevicePower_eq_zero_of_allNull {register : Register}
    (h : anyRegisterNonNull register = false) :
    calculateDevicePower register = 0 := by
  unfold anyRegisterNonNull at h
  simp only [Bool.or_eq_false_iff, Bool.not_eq_false'] at h
  obtain ⟨⟨⟨hW, hA⟩, hB⟩, hC⟩ := h
  unfold calculateDevicePower
  simp [hW, hA, hB, hC]

/-- C2 counterexample: the register map with only `WphA = "10"` (W, WphB,
WphC absent).  The claim's rule says such a device contributes no data, but
the code gives it power 0 and still contributes it, marking its category as
fresh (visible in `receivedDevices`). -/
theorem c2_device_resolution_counterexample :
    claimedDeviceResolution ⟨none, some (.numStr 10), none, none⟩ = none ∧
    deviceBatchContribution ⟨none, some (.numStr 10), none, none⟩ = some 0 ∧
    (PowerFlowUtils.processPowerFlowData
      [⟨none, some ⟨some "Inv1", some "solar_inverter"⟩,
        some ⟨none, some (.numStr 10), none, none⟩⟩]).receivedDevices.solar = true := by
  refine ⟨rfl, ?_, rfl⟩
  unfold deviceBatchContribution
  norm_num [calculateDevicePower, anyRegisterNonNull, isNullValue]

/-- C2 amended: power resolution as the code computes it — a present
non-null `W` gives `W`'s numeric value; else, with all three phases present
and at least one register non-null, the sum of the non-null phases; a device
contributes no data exactly when all four of W, WphA, WphB, WphC are absent
or null, and otherwise contributes its computed power (possibly zero, e.g.
for a lone non-null phase register).  The map
{W:"null", WphA:"10", WphB:"10", WphC:"10"} yields device power 30. -/
theorem c2_amended_device_resolution :
    (∀ register : Register, isNullValue register.W = false →
      deviceBatchContribution register = some (parsePowerValue register.W)) ∧
    (∀ register : Register, isNullValue register.W = true →
      (register.WphA.isSome && register.WphB.isSome && register.WphC.isSome) = true →
      anyRegisterNonNull register = true →
      deviceBatchContribution register =
        some ((if isNullValue register.WphA then 0 else parsePowerValue register.WphA) +
              (if isNullValue register.WphB then 0 else parsePowerValue register.WphB) +
              (if isNullValue register.WphC then 0 else parsePowerValue register.WphC))) ∧
    (∀ register : Register, anyRegisterNonNull register = false →
      deviceBatchContribution register = none) ∧
    (∀ register : Register, anyRegisterNonNull register = true →
      deviceBatchContribution register = some (calculateDevicePower register)) ∧
    calculateDevicePower
      ⟨some .strNull, some (.numStr 10), some (.numStr 10), some (.numStr 10)⟩ = 30 ∧
    deviceBatchContribution
      ⟨some .strNull, some (.numStr 10), some (.numStr 10), some (.numStr 10)⟩ =
      some 30 := by
  have hex : calculateDevicePower
      ⟨some .strNull, some (.numStr 10), some (.numStr 10), some (.numStr 10)⟩ = 30 := by
    norm_num [calculateDevicePower, isNullValue, parsePowerValue]
  refine ⟨?_, ?_, ?_, ?_, hex, ?_⟩
  · intro register h
    have hW : register.W.isSome = true := by
      cases hr : register.W
      · rw [hr] at h
        simp [isNullValue] at h
      · simp
    have hAny : anyRegisterNonNull register = true := by
      simp [anyRegisterNonNull, h]
    unfold deviceBatchContribution
    rw [hAny, Bool.or_true, if_pos rfl]
    unfold calculateDevicePower
    rw [hW, h]
    simp
  · intro register hW hPh hAny
    obtain ⟨hAB, hC⟩ := Bool.and_eq_true_iff.mp hPh
    obtain ⟨hA, hB⟩ := Bool.and_eq_true_iff.mp hAB
    have hRest : (!isNullValue register.WphA || !isNullValue register.WphB ||
        !isNullValue register.WphC) = true := by
      simpa [anyRegisterNonNull, hW] using hAny
    unfold deviceBatchContribution
    rw [hAny, Bool.or_true, if_pos rfl]
    unfold calculateDevicePower
    rw [hW, hA, hB, hC, hRest]
    simp
  · intro register h
    have hc := calculateDevicePower_eq_zero_of_allNull h
    unfold deviceBatchContribution
    rw [hc, h]
    simp
  · intro register h
    unfold deviceBatchContribution
    rw [h, Bool.or_true, if_pos rfl]
  · unfold deviceBatchContribution
    rw [hex]
    norm_num [anyRegisterNonNull, isNullValue]

/-- Witness for C2's amended theorem: a composite register W = 250 resolves
to W's numeric value and contributes; an all-absent register map contributes
no data. -/
theorem c2_amended_device_resolution_witness :
    deviceBatchContribution ⟨some (.numVal 250), none, none, none⟩ =
      some (parsePowerValue (some (.numVal 250))) ∧
    deviceBatchContribution ⟨none, none, none, none⟩ = none :=
  ⟨c2_amended_device_resolution.1 ⟨some (.numVal 250), none, none, none⟩ rfl,
   c2_amended_device_resolution.2.2.1 ⟨none, none, none, none⟩ rfl⟩

/-! ### C4 -/

/-- C4: every output metric of the emitted snapshot equals the half-up
2-decimal rounding of its pre-rounding value: for a fresh category the raw
per-batch sum, for a carried category the previous value (already a whole
number of hundredths, so rounding fixes it), and for load the sum of the
three emitted category metrics. -/
theorem c4_metrics_rounded_half_up (history : List (List SensorEntry × Int))
    (batch : List SensorEntry) (ts : Int) :
    ((SocketManager.processPowerFlowData (replayBatches history) batch ts).2).solar =
      round2 (if batchReports "solar_inverter" batch
              then batchSum "solar_inverter" batch
              else (replayBatches history).solar) ∧
    ((SocketManager.processPowerFlowData (replayBatches history) batch ts).2).grid =
      round2 (if batchReports "power_meter" batch
              then batchSum "power_meter" batch
              else (replayBatches history).grid) ∧
    ((SocketManager.processPowerFlowData (replayBatches history) batch ts).2).genset =
      round2 (if batchReports "genset_controller" batch
              then batchSum "genset_controller" batch
              else (replayBatches history).genset) ∧
    ((SocketManager.processPowerFlowData (replayBatches history) batch ts).2).load =
      round2
        (((SocketManager.processPowerFlowData (replayBatches history) batch ts).2).solar +
         ((SocketManager.processPowerFlowData (replayBatches history) batch ts).2).grid +
         ((SocketManager.processPowerFlowData (replayBatches history) batch ts).2).genset) := by
  obtain ⟨h1, h2, h3, _⟩ := stateCent_replay history
  have hcs : IsCent
      ((SocketManager.processPowerFlowData (replayBatches history) batch ts).2).solar := by
    rw [snap_solar_eq]
    split
    · exact isCent_round2 _
    · exact h1
  have hcg : IsCent
      ((SocketManager.processPowerFlowData (replayBatches history) batch ts).2).grid := by
    rw [snap_grid_eq]
    split
    · exact isCent_round2 _
    · exact h2
  have hcn : IsCent
      ((SocketManager.processPowerFlowData (replayBatches history) batch ts).2).genset := by
    rw [snap_genset_eq]
    split
    · exact isCent_round2 _
    · exact h3
  refine ⟨?_, ?_, ?_, ?_⟩
  · rw [snap_solar_eq]
    split
    · rfl
    · exact h1.round2_fix.symm
  · rw [snap_grid_eq]
    split
    · rfl
    · exact h2.round2_fix.symm
  · rw [snap_genset_eq]
    split
    · rfl
    · exact h3.round2_fix.symm
  · have hload :
        ((SocketManager.processPowerFlowData (replayBatches history) batch ts).2).load =
        ((SocketManager.processPowerFlowData (replayBatches history) batch ts).2).solar +
        ((SocketManager.processPowerFlowData (replayBatches history) batch ts).2).grid +
        ((SocketManager.processPowerFlowData (replayBatches history) batch ts).2).genset := rfl
    rw [hload, ((hcs.add hcg).add hcn).round2_fix]

/-! ### C6 -/

/-- C6: for every device room key and every sequence of join/leave/disconnect
events, join increments the room's reference count (creating the entry,
hence count 1 when it was absent at count 0), leave and disconnect decrement
it floored at zero, the entry is present after a decrement exactly when the
old count was at least 2 (deleted exactly when the count reaches zero, and
in general an entry exists iff its count is at least 1), counts are never
negative; one join followed by one leave removes the entry, and two joins
followed by one leave leave the entry present with count 1. -/
theorem c6_room_refcount_lifecycle :
    (∀ (m : SocketManager.RefCounts) (k : String),
       SocketManager.getRef (SocketManager.stepRoomEvent m (.join k)) k =
         SocketManager.getRef m k + 1 ∧
       SocketManager.hasRef (SocketManager.stepRoomEvent m (.join k)) k = true) ∧
    (∀ (m : SocketManager.RefCounts) (k : String),
       SocketManager.getRef (SocketManager.stepRoomEvent m (.leave k)) k =
         max 0 (SocketManager.getRef m k - 1)) ∧
    (∀ (m : SocketManager.RefCounts) (k : String),
       SocketManager.getRef (SocketManager.stepRoomEvent m (.disconnect [k])) k =
         max 0 (SocketManager.getRef m k - 1)) ∧
    (∀ (events : List SocketManager.RoomEvent) (k : String),
       0 ≤ SocketManager.getRef (SocketManager.replayRoomEvents events) k) ∧
    (∀ (events : List SocketManager.RoomEvent) (k : String),
       SocketManager.hasRef (SocketManager.replayRoomEvents events) k =
         decide (1 ≤ SocketManager.getRef (SocketManager.replayRoomEvents events) k)) ∧
    (∀ (events : List SocketManager.RoomEvent) (k : String),
       SocketManager.hasRef
         (SocketManager.stepRoomEvent (SocketManager.replayRoomEvents events) (.leave k)) k =
         decide (2 ≤ SocketManager.getRef (SocketManager.replayRoomEvents events) k)) ∧
    SocketManager.replayRoomEvents [.join "Inv1", .leave "Inv1"] = [] ∧
    SocketManager.replayRoomEvents [.join "Inv1", .join "Inv1", .leave "Inv1"] =
      [("Inv1", 1)] := by
  refine ⟨?_, ?_, ?_, ?_, ?_, ?_, by decide, by decide⟩
  · intro m k
    exact ⟨SocketManager.getRef_setRef_self m k _, SocketManager.hasRef_setRef_self m k _⟩
  · intro m k
    exact SocketManager.getRef_dec m k
  · intro m k
    show SocketManager.getRef (SocketManager.decDeviceRef m k).2 k = _
    exact SocketManager.getRef_dec m k
  · intro events k
    exact SocketManager.getRef_nonneg (SocketManager.refInv_replay events) k
  · intro events k
    exact SocketManager.hasRef_eq_decide (SocketManager.refInv_replay events) k
  · intro events k
    have hm := SocketManager.refInv_replay events
    have hnn := SocketManager.getRef_nonneg hm k
    show SocketManager.hasRef (SocketManager.decDeviceRef _ k).2 k = _
    rw [SocketManager.decDeviceRef_eq]
    by_cases h : max 0 (SocketManager.getRef (SocketManager.replayRoomEvents events) k - 1) = 0
    · rw [if_pos h, SocketManager.hasRef_delRef_self]
      symm
      rw [decide_eq_false_iff_not]
      omega
    · rw [if_neg h, SocketManager.hasRef_setRef_self]
      symm
      rw [decide_eq_true_eq]
      omega

/-! ### C3, C10, C5 -/

/-- C3: for every batch, the load metric of the emitted aggregate snapshot
equals the sum of the snapshot's (already rounded, possibly carried-forward)
solar, grid, and genset metrics. -/
theorem c3_load_equals_category_sum (prev : PowerFlowState)
    (sensorData : List SensorEntry) (timestamp : Int) :
    ((SocketManager.processPowerFlowData prev sensorData timestamp).2).load =
      ((SocketManager.processPowerFlowData prev sensorData timestamp).2).solar +
      ((SocketManager.processPowerFlowData prev sensorData timestamp).2).grid +
      ((SocketManager.processPowerFlowData prev sensorData timestamp).2).genset := rfl

/-- C10: the carry-forward state update and the computed snapshot are
identical for any two adapter room tables: the subscriber set only gates
delivery, never the aggregate values. -/
theorem c10_subscribers_cannot_influence_aggregates (io io' : Option Rooms)
    (prev : PowerFlowState) (sensorData : List SensorEntry) (timestamp : Int) :
    (SocketManager.processAndEmitPowerFlowData io prev sensorData timestamp).newState =
      (SocketManager.processAndEmitPowerFlowData io' prev sensorData timestamp).newState ∧
    (SocketManager.processAndEmitPowerFlowData io prev sensorData timestamp).snapshot =
      (SocketManager.processAndEmitPowerFlowData io' prev sensorData timestamp).snapshot :=
  ⟨rfl, rfl⟩

/-- C5: emitting to a room with zero subscribers is a no-op returning false;
with one or more subscribers the payload is delivered to every member and
the emit returns true (both for device-scoped and power-flow emits). -/
theorem c5_emit_gated_on_subscribers {α : Type} (io : Option Rooms)
    (deviceName : String) (payload : α) (snapshot : PowerFlowSnapshot) :
    (subscribersOf io (SocketManager.sensorRoom deviceName) = [] →
      SocketManager.emitSensorToDevice io deviceName payload = (false, [])) ∧
    (subscribersOf io (SocketManager.sensorRoom deviceName) ≠ [] →
      SocketManager.emitSensorToDevice io deviceName payload =
        (true, (subscribersOf io (SocketManager.sensorRoom deviceName)).map
          (fun c => (c, "sensor-data", payload)))) ∧
    (subscribersOf io "power-flow" = [] →
      SocketManager.emitPowerFlowData io snapshot = (false, [])) ∧
    (subscribersOf io "power-flow" ≠ [] →
      SocketManager.emitPowerFlowData io snapshot =
        (true, (subscribersOf io "power-flow").map
          (fun c => (c, "power-flow-data", snapshot)))) := by
  refine ⟨?_, ?_, ?_, ?_⟩
  · intro h
    simp [SocketManager.emitSensorToDevice, hasListeners_eq_not_isEmpty, h]
  · intro h
    have h' : (subscribersOf io (SocketManager.sensorRoom deviceName)).isEmpty = false := by
      simpa [List.isEmpty_iff] using h
    simp [SocketManager.emitSensorToDevice, hasListeners_eq_not_isEmpty, h',
      SocketManager.roomDeliveries, subscribersOf]
    exact h
  · intro h
    simp [SocketManager.emitPowerFlowData, hasListeners_eq_not_isEmpty, h]
  · intro h
    have h' : (subscribersOf io "power-flow").isEmpty = false := by
      simpa [List.isEmpty_iff] using h
    simp [SocketManager.emitPowerFlowData, hasListeners_eq_not_isEmpty, h',
      SocketManager.roomDeliveries, subscribersOf]
    exact h

/-! ### C7 -/

namespace DeviceTableService

lemma loadBlueprint_ok_stable {cache : BlueprintCache} {dir : BlueprintDir}
    {reference : String} {bp : Blueprint} {c1 : BlueprintCache}
    (h : loadBlueprint cache dir reference = .ok (bp, c1)) :
    loadBlueprint c1 dir reference = .ok (bp, c1) := by
  unfold loadBlueprint at h ⊢
  cases hf : cache.find? (fun p => p.1 == reference) with
  | some p =>
    rw [hf] at h
    simp only [Except.ok.injEq, Prod.mk.injEq] at h
    obtain ⟨hbp, hc⟩ := h
    subst hbp hc
    rw [hf]
  | none =>
    rw [hf] at h
    cases hd : findBlueprint dir reference with
    | some b =>
      rw [hd] at h
      simp only [Except.ok.injEq, Prod.mk.injEq] at h
      obtain ⟨hbp, hc⟩ := h
      subst hbp hc
      rw [List.find?_append, hf]
      simp [List.find?]
    | none =>
      rw [hd] at h
      cases h

lemma filter_ne_self (A : List DeviceTableRow) (deviceName : String) :
    (A.filter (fun r => r.device_name != deviceName)).filter
      (fun r => r.device_name != deviceName) =
    A.filter (fun r => r.device_name != deviceName) :=
  List.filter_eq_self.mpr (fun _ ha => (List.mem_filter.mp ha).2)

lemma filter_eq_of_filter_ne (A : List DeviceTableRow) (deviceName : String) :
    (A.filter (fun r => r.device_name != deviceName)).filter
      (fun r => r.device_name == deviceName) = [] := by
  rw [List.filter_eq_nil_iff]
  intro r hr
  have h2 := (List.mem_filter.mp hr).2
  simp only [bne] at h2
  simpa using h2

end DeviceTableService

/-- C7: creating a device table for a device that already has one is
idempotent: a second `createDeviceTable` call with the same arguments
succeeds, returns the same table name, leaves the cache and the database
exactly as they were, and the `device_tables` registry holds exactly one
row for that device. -/
theorem c7_createDeviceTable_idempotent
    (cache : BlueprintCache) (dir : BlueprintDir) (db : GlobalDb)
    (deviceName reference t : String) (c1 : BlueprintCache) (d1 : GlobalDb)
    (h : DeviceTableService.createDeviceTable cache dir db deviceName reference =
      .ok (t, c1, d1)) :
    DeviceTableService.createDeviceTable c1 dir d1 deviceName reference =
      .ok (t, c1, d1) ∧
    (d1.device_tables.filter (fun r => r.device_name == deviceName)).length = 1 := by
  unfold DeviceTableService.createDeviceTable at h
  split at h
  next e heq => cases h
  next bp c1' heq =>
    split at h
    next hreg => cases h
    next hreg =>
      simp only [Except.ok.injEq, Prod.mk.injEq] at h
      obtain ⟨ht, hc, hd⟩ := h
      subst ht hc
      have hstable := DeviceTableService.loadBlueprint_ok_stable heq
      have htn : DeviceTableService.tableNameFor deviceName ∈ d1.tables := by
        rw [← hd]
        unfold DeviceTableService.registerDeviceTable DeviceTableService.createTableIfNotExists
        split
        · exact List.mem_of_elem_eq_true (by assumption)
        · exact List.mem_append_right _ (List.mem_singleton.mpr rfl)
      constructor
      · unfold DeviceTableService.createDeviceTable
        rw [hstable]
        simp only [hreg, if_false, Except.ok.injEq, Prod.mk.injEq]
        simp only [Bool.false_eq_true, if_false, Except.ok.injEq, Prod.mk.injEq]
        refine ⟨trivial, trivial, ?_⟩
        have hct : DeviceTableService.createTableIfNotExists d1
            (DeviceTableService.tableNameFor deviceName) = d1 := by
          unfold DeviceTableService.createTableIfNotExists
          rw [if_pos]
          exact List.elem_eq_true_of_mem htn
        rw [hct, ← hd]
        unfold DeviceTableService.registerDeviceTable
        have hrow : List.filter (fun r => r.device_name != deviceName)
            [(⟨deviceName, bp.header.device_type, reference,
              DeviceTableService.tableNameFor deviceName⟩ : DeviceTableRow)] = [] := by
          simp [List.filter_cons]
        simp only [List.filter_append, DeviceTableService.filter_ne_self, hrow,
          List.append_nil]
      · rw [← hd]
        unfold DeviceTableService.registerDeviceTable
        simp only [List.filter_append, DeviceTableService.filter_eq_of_filter_ne]
        simp

/-- Witness for C7: a concrete blueprint directory and an empty database;
the first call succeeds and the theorem yields the idempotent second call. -/
theorem c7_createDeviceTable_idempotent_witness :
    DeviceTableService.createDeviceTable
      [("ref1", ⟨⟨"ref1", "solar_inverter"⟩, [⟨"W"⟩]⟩)] []
      ⟨["device_Inv_1"],
       [⟨"Inv 1", "solar_inverter", "ref1", "device_Inv_1"⟩]⟩ "Inv 1" "ref1" =
      .ok ("device_Inv_1",
        [("ref1", ⟨⟨"ref1", "solar_inverter"⟩, [⟨"W"⟩]⟩)],
        ⟨["device_Inv_1"],
         [⟨"Inv 1", "solar_inverter", "ref1", "device_Inv_1"⟩]⟩) ∧
    ((⟨["device_Inv_1"],
       [⟨"Inv 1", "solar_inverter", "ref1", "device_Inv_1"⟩]⟩ : GlobalDb).device_tables.filter
      (fun r => r.device_name == "Inv 1")).length = 1 :=
  c7_createDeviceTable_idempotent [] [⟨⟨"ref1", "solar_inverter"⟩, [⟨"W"⟩]⟩]
    ⟨[], []⟩ "Inv 1" "ref1" "device_Inv_1"
    [("ref1", ⟨⟨"ref1", "solar_inverter"⟩, [⟨"W"⟩]⟩)]
    ⟨["device_Inv_1"], [⟨"Inv 1", "solar_inverter", "ref1", "device_Inv_1"⟩]⟩
    rfl

/-! ### C9 -/

namespace SQLiteService

lemma attemptQuery_spec (store : Nat → QueryOutcome) (r : Nat) :
    (attemptQuery store r).2.1 ≤ 4 - min r 3 ∧
    (∀ d ∈ (attemptQuery store r).2.2, d = 1000) ∧
    ((attemptQuery store r).1.success = false →
      (attemptQuery store r).1.data = [] ∧
      (attemptQuery store r).1.error.isSome = true) := by
  induction r using attemptQuery.induct store with
  | case1 x code message hstore hcond ih =>
    rw [attemptQuery.eq_def, hstore]
    dsimp only
    rw [dif_pos hcond]
    obtain ⟨ha, hd, hs⟩ := ih
    refine ⟨?_, ?_, ?_⟩
    · have hx : x < 3 := hcond.2
      simp only [Nat.min_def] at ha ⊢
      split at ha <;> split <;> omega
    · intro d hmem
      rcases List.mem_cons.mp hmem with rfl | hmem
      · rfl
      · exact hd d hmem
    · exact hs
  | case2 x code message hstore hcond =>
    rw [attemptQuery.eq_def, hstore]
    dsimp only
    rw [dif_neg hcond]
    refine ⟨?_, ?_, ?_⟩
    · simp only [Nat.min_def]
      split <;> omega
    · intro d hmem
      cases hmem
    · intro _
      exact ⟨rfl, rfl⟩
  | case3 x rows hstore =>
    rw [attemptQuery.eq_def, hstore]
    dsimp only
    refine ⟨?_, ?_, ?_⟩
    · simp only [Nat.min_def]
      split <;> omega
    · intro d hmem
      cases hmem
    · intro hfalse
      cases hfalse

end SQLiteService

/-- C9: every aggregate-history range read resolves with a result object
(never an uncaught rejection): at most 4 query attempts are made, every
inter-attempt delay is the fixed 1000 ms, every failure result is soft
(success flag false, empty data, an error message present), and when all
four attempts report the transient busy code the caller receives exactly
the soft failure object carrying the last busy message after 3 retries. -/
theorem c9_history_busy_retry_soft_failure (store : Nat → QueryOutcome) :
    (SQLiteService.getPowerFlowHistory store).2.1 ≤ 4 ∧
    (∀ d ∈ (SQLiteService.getPowerFlowHistory store).2.2, d = 1000) ∧
    ((SQLiteService.getPowerFlowHistory store).1.success = false →
      (SQLiteService.getPowerFlowHistory store).1.data = [] ∧
      (SQLiteService.getPowerFlowHistory store).1.error.isSome = true) ∧
    (∀ msg0 msg1 msg2 msg3 : String,
      store 0 = .err "SQLITE_BUSY" msg0 →
      store 1 = .err "SQLITE_BUSY" msg1 →
      store 2 = .err "SQLITE_BUSY" msg2 →
      store 3 = .err "SQLITE_BUSY" msg3 →
      SQLiteService.getPowerFlowHistory store =
        ({ success := false, error := some msg3, data := [], count := none }, 4,
          [1000, 1000, 1000])) := by
  obtain ⟨ha, hd, hs⟩ := SQLiteService.attemptQuery_spec store 0
  refine ⟨by simpa [SQLiteService.getPowerFlowHistory] using ha,
    by simpa [SQLiteService.getPowerFlowHistory] using hd,
    by simpa [SQLiteService.getPowerFlowHistory] using hs, ?_⟩
  intro msg0 msg1 msg2 msg3 h0 h1 h2 h3
  unfold SQLiteService.getPowerFlowHistory
  simp [SQLiteService.attemptQuery.eq_def, h0, h1, h2, h3]

/-- Witness for C9: a store that is busy on every attempt yields the soft
failure object after 4 attempts and 3 fixed delays. -/
theorem c9_history_busy_retry_soft_failure_witness :
    SQLiteService.getPowerFlowHistory
        (fun _ => .err "SQLITE_BUSY" "database is locked") =
      ({ success := false, error := some "database is locked", data := [],
         count := none }, 4, [1000, 1000, 1000]) :=
  (c9_history_busy_retry_soft_failure
    (fun _ => .err "SQLITE_BUSY" "database is locked")).2.2.2
    "database is locked" "database is locked" "database is locked"
    "database is locked" rfl rfl rfl rfl

/-! ### C8 -/

/-- An earlier parse of reference "GFE-REF" (as sitting in the cache). -/
def cachedBlueprintOld : Blueprint := ⟨⟨"GFE-REF", "solar_inverter"⟩, [⟨"W"⟩]⟩

/-- A changed on-disk document for the same reference. -/
def diskBlueprintNew : Blueprint := ⟨⟨"GFE-REF", "solar_inverter"⟩, [⟨"W"⟩, ⟨"Hz"⟩]⟩

/-- C8 counterexample: the cache holds an old parse of reference "GFE-REF"
while the directory holds a different document for the same reference; a
lookup still returns the stale cached entry with the cache unchanged,
although a disk scan would return the new document — the code performs no
TTL revalidation (it keeps no timestamps at all) and never evicts, so the
claimed bounded-size, 30-minute-TTL cache behaviour is absent. -/
theorem c8_counterexample :
    DeviceTableService.loadBlueprint [("GFE-REF", cachedBlueprintOld)]
        [diskBlueprintNew] "GFE-REF" =
      .ok (cachedBlueprintOld, [("GFE-REF", cachedBlueprintOld)]) ∧
    DeviceTableService.findBlueprint [diskBlueprintNew] "GFE-REF" =
      some diskBlueprintNew ∧
    cachedBlueprintOld ≠ diskBlueprintNew :=
  ⟨rfl, rfl, by decide⟩

/-- C8 amended: the blueprint cache is an unbounded, no-TTL insertion-order
map: a cache hit returns the stored blueprint with the cache unchanged and
with no dependence on the directory contents (entries are never revalidated
from disk), and a successful lookup never evicts — the cache either stays
identical or grows by exactly the one new entry. -/
theorem c8_cache_unbounded_no_ttl
    (cache : BlueprintCache) (dir dir2 : BlueprintDir) (reference : String) :
    (∀ p, cache.find? (fun q => q.1 == reference) = some p →
      DeviceTableService.loadBlueprint cache dir reference = .ok (p.2, cache)) ∧
    (∀ bp c1, DeviceTableService.loadBlueprint cache dir reference = .ok (bp, c1) →
      c1 = cache ∨ c1 = cache ++ [(reference, bp)]) ∧
    (cache.find? (fun q => q.1 == reference) ≠ none →
      DeviceTableService.loadBlueprint cache dir reference =
        DeviceTableService.loadBlueprint cache dir2 reference) := by
  refine ⟨?_, ?_, ?_⟩
  · intro p hp
    unfold DeviceTableService.loadBlueprint
    rw [hp]
  · intro bp c1 h
    unfold DeviceTableService.loadBlueprint at h
    cases hf : cache.find? (fun q => q.1 == reference) with
    | some p =>
      rw [hf] at h
      simp only [Except.ok.injEq, Prod.mk.injEq] at h
      exact Or.inl h.2.symm
    | none =>
      rw [hf] at h
      cases hd : DeviceTableService.findBlueprint dir reference with
      | some b =>
        rw [hd] at h
        simp only [Except.ok.injEq, Prod.mk.injEq] at h
        obtain ⟨hbp, hc⟩ := h
        subst hbp
        exact Or.inr hc.symm
      | none =>
        rw [hd] at h
        cases h
  · intro hne
    unfold DeviceTableService.loadBlueprint
    cases hf : cache.find? (fun q => q.1 == reference) with
    | none => exact absurd hf hne
    | some p => rfl

/-- Witness for C8's amended theorem at a concrete one-entry cache: a hit
returns the stored entry unchanged and ignores a directory that differs. -/
theorem c8_cache_unbounded_no_ttl_witness :
    DeviceTableService.loadBlueprint [("GFE-REF", cachedBlueprintOld)] [] "GFE-REF" =
      .ok (cachedBlueprintOld, [("GFE-REF", cachedBlueprintOld)]) ∧
    ([("GFE-REF", cachedBlueprintOld)] = [("GFE-REF", cachedBlueprintOld)] ∨
     [("GFE-REF", cachedBlueprintOld)] =
       [("GFE-REF", cachedBlueprintOld)] ++ [("GFE-REF", cachedBlueprintOld)]) ∧
    DeviceTableService.loadBlueprint [("GFE-REF", cachedBlueprintOld)] [] "GFE-REF" =
      DeviceTableService.loadBlueprint [("GFE-REF", cachedBlueprintOld)]
        [diskBlueprintNew] "GFE-REF" :=
  ⟨(c8_cache_unbounded_no_ttl [("GFE-REF", cachedBlueprintOld)] [] []
      "GFE-REF").1 ("GFE-REF", cachedBlueprintOld) rfl,
   (c8_cache_unbounded_no_ttl [("GFE-REF", cachedBlueprintOld)] [] []
      "GFE-REF").2.1 cachedBlueprintOld [("GFE-REF", cachedBlueprintOld)] rfl,
   (c8_cache_unbounded_no_ttl [("GFE-REF", cachedBlueprintOld)] []
      [diskBlueprintNew] "GFE-REF").2.2 (by decide)⟩

/-- Witness for C5 at concrete room tables: an empty adapter gives a false
no-op, a populated room delivers to its two members. -/
theorem c5_emit_gated_on_subscribers_witness :
    SocketManager.emitSensorToDevice (some []) "Inv1" (37 : Nat) = (false, []) ∧
    SocketManager.emitSensorToDevice (some [("sensor:Inv1", [4, 9])]) "Inv1" (37 : Nat) =
      (true, [(4, "sensor-data", 37), (9, "sensor-data", 37)]) := by
  constructor
  · exact (c5_emit_gated_on_subscribers (some []) "Inv1" (37 : Nat)
      ⟨0, 0, 0, 0, 0, ⟨false, false, false⟩, ⟨"", "", "", ""⟩⟩).1 (by decide)
  · have h := (c5_emit_gated_on_subscribers (some [("sensor:Inv1", [4, 9])]) "Inv1" (37 : Nat)
      ⟨0, 0, 0, 0, 0, ⟨false, false, false⟩, ⟨"", "", "", ""⟩⟩).2.1 (by decide)
    rw [h]
    rfl

end GfeBackend
